import Mathlib

/-!
Shallow embedding of the resilient conversation-turn orchestrator in
streamlit_app.py and of the user store in models/user.py, together with
theorems settling the specification claims about them.

The embedding follows the Python source: the rotation-cursor file is a small
state type, Python list subscription and negative-slice semantics are modelled
exactly, the tenacity-decorated safe_request is an explicit retry loop with the
decorator parameters stop_after_attempt(5) and
wait_exponential(multiplier 2, min 5, max 30), and the streamlit page handlers
become a step function on an explicit application state.
-/

namespace AgentAI

/-- Persistent content of the rotation-cursor file api_key_index.txt: the file
may be absent (reading raises FileNotFoundError), hold text that int() rejects
(ValueError), or hold an integer. -/
inductive CursorFile where
  | absent : CursorFile
  | corrupt : CursorFile
  | stored : Int → CursorFile
deriving DecidableEq

/-- The guarded read in get_next_api_key: both FileNotFoundError and ValueError
default the index to 0. -/
def readCursor : CursorFile → Int
  | CursorFile.absent => 0
  | CursorFile.corrupt => 0
  | CursorFile.stored n => n

/-- Python list subscription with an int index: an index in [0, len) selects
directly, an index in [-len, 0) selects from the end, and anything else raises
IndexError (none here). -/
def pyIndex (xs : List String) (i : Int) : Option String :=
  if 0 ≤ i ∧ i < (xs.length : Int) then some (xs.getD i.toNat "")
  else if -(xs.length : Int) ≤ i ∧ i < 0 then
    some (xs.getD (xs.length - (-i).toNat) "")
  else none

/-- Failure outcomes for the credential rotator. The code path can only raise
IndexError; configurationError is the distinguished configuration-failure
outcome named by the specification, present so that claims mentioning it can be
stated and compared with what the code raises. -/
inductive RotError where
  | indexError : RotError
  | configurationError : RotError
deriving DecidableEq

/-- Embedding of get_next_api_key: read the cursor (defaulting to 0), select
API_KEYS[index], then write (index + 1) % len(API_KEYS) back to the file and
return the key. On IndexError the function aborts before the write, so no new
file state is produced. -/
def get_next_api_key (keys : List String) (file : CursorFile) :
    Except RotError (String × CursorFile) :=
  match pyIndex keys (readCursor file) with
  | none => Except.error RotError.indexError
  | some key =>
      Except.ok (key, CursorFile.stored ((readCursor file + 1) % (keys.length : Int)))

/-- Equality of Except values is decidable when it is on both sides. -/
instance {ε α : Type} [DecidableEq ε] [DecidableEq α] : DecidableEq (Except ε α) := fun x y =>
  match x, y with
  | Except.ok a, Except.ok b =>
    if h : a = b then isTrue (by rw [h])
    else isFalse (fun hxy => h (Except.ok.inj hxy))
  | Except.ok _, Except.error _ => isFalse (fun hxy => Except.noConfusion hxy)
  | Except.error _, Except.ok _ => isFalse (fun hxy => Except.noConfusion hxy)
  | Except.error e, Except.error f =>
    if h : e = f then isTrue (by rw [h])
    else isFalse (fun hxy => h (Except.error.inj hxy))

/-- Outputs of n successive sessions, each calling get_next_api_key once and
threading the cursor file through. A failing call writes nothing, so the file
is unchanged for the next session. -/
def rotationOutputs (keys : List String) : CursorFile → Nat → List (Except RotError String)
  | _, 0 => []
  | file, Nat.succ n =>
    match get_next_api_key keys file with
    | Except.error e => Except.error e :: rotationOutputs keys file n
    | Except.ok kf => Except.ok kf.1 :: rotationOutputs keys kf.2 n

/-- Exceptions the remote language-model call can raise, in the taxonomy the
code distinguishes: openai.RateLimitError, openai.APIError, and everything
else. -/
inductive PyExn where
  | rateLimitError : PyExn
  | apiError : PyExn
  | otherError : PyExn
deriving DecidableEq

/-- The retry_if_exception_type((RateLimitError, APIError)) predicate of the
safe_request decorator. -/
def isRetryable : PyExn → Bool
  | PyExn.rateLimitError => true
  | PyExn.apiError => true
  | PyExn.otherError => false

/-- Outcome of one attempt of the remote call. -/
inductive CallOutcome where
  | success : String → CallOutcome
  | failure : PyExn → CallOutcome

/-- Result of the whole decorated call: a value, an exception re-raised
immediately because it is not retryable, or tenacity RetryError carrying the
last cause after attempts are exhausted. -/
inductive InvokeResult where
  | ok : String → InvokeResult
  | raised : PyExn → InvokeResult
  | retryError : PyExn → InvokeResult
deriving DecidableEq

/-- The tenacity wait_exponential(multiplier, min, max) strategy with the
default exp_base 2, evaluated at a 1-based attempt number: tenacity (8.2.2 and
later, the only era this repository's imports allow) computes
multiplier * exp_base ^ (attempt_number - 1), clamped as
max(lo, min(result, hi)). -/
def waitExponential (multiplier lo hi attempt : Nat) : Nat :=
  Nat.max lo (Nat.min (multiplier * 2 ^ (attempt - 1)) hi)

/-- The tenacity retry loop: run the current attempt; on success return; on a
non-retryable exception re-raise it at once; on a retryable exception either
stop with RetryError when no retries remain or sleep the computed backoff and
try again. attempt is the 1-based attempt number, fuel the number of retries
still allowed. The returned list is the sequence of sleeps performed. -/
def retryLoop (call : Nat → CallOutcome) : Nat → Nat → InvokeResult × List Nat
  | attempt, fuel =>
    match call attempt with
    | CallOutcome.success s => (InvokeResult.ok s, [])
    | CallOutcome.failure e =>
      if isRetryable e then
        match fuel with
        | 0 => (InvokeResult.retryError e, [])
        | Nat.succ f =>
          let rest := retryLoop call (attempt + 1) f
          (rest.1, waitExponential 2 5 30 attempt :: rest.2)
      else (InvokeResult.raised e, [])

/-- Embedding of safe_request: the remote call decorated with
stop_after_attempt(5) and wait_exponential(multiplier 2, min 5, max 30),
retrying only on RateLimitError and APIError (the body re-raises both
unchanged, so the decorator sees the original exception). Five attempts means
four retries of fuel. -/
def safe_request (call : Nat → CallOutcome) : InvokeResult × List Nat :=
  retryLoop call 1 4

/-- Message roles as used by the langchain message classes. -/
inductive Role where
  | user : Role
  | assistant : Role
  | system : Role
deriving DecidableEq

/-- One message of the conversation memory. -/
structure Msg where
  role : Role
  content : String
deriving DecidableEq

/-- Python slice xs[-k:] as the code writes it with k = 10: for k at least 1 it
keeps the last k elements (all of them when the list is shorter); for k = 0 the
slice is xs[0:], the whole list, because -0 is 0. -/
def pySliceLast (k : Nat) (xs : List Msg) : List Msg :=
  if k = 0 then xs else xs.drop (xs.length - k)

/-- Comparison definition taken from the words of the specification: the last k
turns of the window, fewer when the window is shorter. Used only to compare the
claimed behaviour with the Python slice above. -/
def specContextSuffix (k : Nat) (xs : List Msg) : List Msg :=
  xs.drop (xs.length - k)

/-- The context read as an operation on the window: the produced context paired
with the window it leaves behind. Slicing is a pure read, so the window
component is the input window. -/
def contextRead (k : Nat) (xs : List Msg) : List Msg × List Msg :=
  (pySliceLast k xs, xs)

/-- The model context built on every dialogue turn:
[SystemMessage(system_template)] + memory.messages[-10:]. -/
def chatContext (sysTemplate : String) (msgs : List Msg) : List Msg :=
  Msg.mk Role.system sysTemplate :: pySliceLast 10 msgs

/-- One row written through save_message (timestamps omitted; they are opaque
to every claim). -/
structure SavedMsg where
  senderRole : String
  content : String
  senderLabel : String
  recipientLabel : String
  email : String
  sessionId : Nat
deriving DecidableEq

/-- The three pages of the routing block at the bottom of streamlit_app.py.
Home is the intake page, Chat the dialogue page, Result the debrief page. -/
inductive Page where
  | Home : Page
  | Chat : Page
  | Result : Page
deriving DecidableEq

/-- The per-session streamlit state the orchestrator reads and writes, plus the
transcript-sink writes it has issued. -/
structure AppState where
  page : Page
  messages : List Msg
  userName : String
  userEmail : String
  userAdded : Bool
  apiKey : String
  sessionId : Nat
  systemTemplate : String
  savedMessages : List SavedMsg
  savedResults : List String
deriving DecidableEq

/-- User-visible operations the pages accept. A chat turn carries the text the
user submitted and the behaviour of the remote model as a function of the
context it is sent and the 1-based attempt number. -/
inductive Op where
  | submitIntake : String → Op
  | chatTurn : String → (List Msg → Nat → CallOutcome) → Op
  | endChat : Op
  | debrief : (Nat → CallOutcome) → Op

/-- The intake submission of page_home: the button handler runs only for a
truthy (non-empty) token; it derives the email from the stripped token, stores
the user once, records name and email in the session, and moves to the chat
page. -/
def page_home_submit (tok : String) (s : AppState) : AppState :=
  if tok = "" then s
  else { s with page := Page.Chat, userName := tok,
                userEmail := tok.trim ++ "@test.cop", userAdded := true }

/-- One dialogue turn of page_chat: append the user message to the memory,
build the context from the system template and the last ten messages, call
safe_request; on success append the reply and persist both turns through
save_message; on an exception the handler re-raises, so nothing after the call
runs — the reply is not appended and neither turn is persisted. -/
def page_chat_turn (prompt : String) (remote : List Msg → Nat → CallOutcome)
    (s : AppState) : AppState :=
  if prompt = "" then s
  else
    match (safe_request (remote (chatContext s.systemTemplate
        (s.messages ++ [Msg.mk Role.user prompt])))).1 with
    | InvokeResult.ok ai =>
        { s with
          messages := (s.messages ++ [Msg.mk Role.user prompt]) ++
            [Msg.mk Role.assistant ai],
          savedMessages := s.savedMessages ++
            [ SavedMsg.mk "user" prompt s.userName "assistant"
                s.userEmail s.sessionId,
              SavedMsg.mk "assistant" ai "assistant" s.userName
                s.userEmail s.sessionId ] }
    | InvokeResult.raised _ =>
        { s with messages := s.messages ++ [Msg.mk Role.user prompt] }
    | InvokeResult.retryError _ =>
        { s with messages := s.messages ++ [Msg.mk Role.user prompt] }

/-- The end-of-chat button of page_chat: it is rendered only when the memory
holds at least 20 messages, and moves to the result page. -/
def page_chat_end (s : AppState) : AppState :=
  if 20 ≤ s.messages.length then { s with page := Page.Result } else s

/-- The debrief of page_result: one safe_request call; on success the feedback
is persisted through save_result; on an exception nothing is written and the
page does not change (the retry button only reruns the page). -/
def page_result_debrief (remote : Nat → CallOutcome) (s : AppState) : AppState :=
  match (safe_request remote).1 with
  | InvokeResult.ok feedback =>
      { s with savedResults := s.savedResults ++ [feedback] }
  | InvokeResult.raised _ => s
  | InvokeResult.retryError _ => s

/-- One operation, dispatched the way the page routing does: only the current
page renders its widgets, so an operation belonging to another page leaves the
state unchanged. -/
def step (op : Op) (s : AppState) : AppState :=
  match s.page, op with
  | Page.Home, Op.submitIntake tok => page_home_submit tok s
  | Page.Chat, Op.chatTurn prompt remote => page_chat_turn prompt remote s
  | Page.Chat, Op.endChat => page_chat_end s
  | Page.Result, Op.debrief remote => page_result_debrief remote s
  | _, _ => s

/-- A sequence of operations applied in order. -/
def run (ops : List Op) (s : AppState) : AppState :=
  ops.foldl (fun t op => step op t) s

/-- Forward position of a page in the Intake, Dialogue, Debrief order. -/
def pageRank : Page → Nat
  | Page.Home => 0
  | Page.Chat => 1
  | Page.Result => 2

/-- One row of the users table; email carries a unique constraint. -/
structure UserRec where
  name : String
  email : String
deriving DecidableEq

/-- Database-layer failures distinguished by add_user. -/
inductive DbErr where
  | integrityError : DbErr
  | otherError : DbErr
deriving DecidableEq

/-- The dbsession.add plus commit pair: the unique constraint on users.email
makes commit raise IntegrityError exactly when a row with the same email is
already stored; otherwise the row is inserted. -/
def commitInsert (db : List UserRec) (u : UserRec) : Except DbErr (List UserRec) :=
  if db.any fun r => decide (r.email = u.email) then Except.error DbErr.integrityError
  else Except.ok (db ++ [u])

/-- Embedding of add_user in models/user.py: commit the insert; IntegrityError
is caught, rolled back and logged without re-raising, so the call completes
normally with the store unchanged; any other exception is re-raised. -/
def add_user (db : List UserRec) (u : UserRec) : Except DbErr (List UserRec) :=
  match commitInsert db u with
  | Except.ok db2 => Except.ok db2
  | Except.error DbErr.integrityError => Except.ok db
  | Except.error e => Except.error e

/-! ### Helper lemmas for the credential rotator -/

theorem pyIndex_nat (keys : List String) (c : Nat) (hc : c < keys.length) :
    pyIndex keys (c : Int) = some (keys.getD c "") := by
  have h0 : (0 : Int) ≤ (c : Int) := Int.natCast_nonneg c
  have h1 : (c : Int) < (keys.length : Int) := by exact_mod_cast hc
  simp [pyIndex, h0, h1]

theorem pyIndex_nil (i : Int) : pyIndex [] i = none := by
  have h1 : ¬((0 : Int) ≤ i ∧ i < ((List.length ([] : List String)) : Int)) := by
    simp only [List.length_nil, Nat.cast_zero]
    omega
  have h2 : ¬(-(((List.length ([] : List String))) : Int) ≤ i ∧ i < 0) := by
    simp only [List.length_nil, Nat.cast_zero]
    omega
  unfold pyIndex
  rw [if_neg h1, if_neg h2]

theorem get_next_read (keys : List String) (file : CursorFile) (c : Nat)
    (hr : readCursor file = (c : Int)) (hc : c < keys.length) :
    get_next_api_key keys file =
      Except.ok (keys.getD c "", CursorFile.stored (((c + 1) % keys.length : Nat) : Int)) := by
  have hmod : ((c : Int) + 1) % (keys.length : Int) = (((c + 1) % keys.length : Nat) : Int) := by
    push_cast
    rfl
  unfold get_next_api_key
  rw [hr, pyIndex_nat keys c hc, hmod]

theorem rotationOutputs_read (keys : List String) (h : keys ≠ []) :
    ∀ (n c : Nat) (file : CursorFile), readCursor file = (c : Int) → c < keys.length →
      rotationOutputs keys file n =
        (List.range n).map (fun i => Except.ok (keys.getD ((c + i) % keys.length) "")) := by
  intro n
  induction n with
  | zero =>
    intro c file hr hc
    simp [rotationOutputs]
  | succ n ih =>
    intro c file hr hc
    have hL : 0 < keys.length := List.length_pos.mpr h
    have hnext : (c + 1) % keys.length < keys.length := Nat.mod_lt _ hL
    have hrec := ih ((c + 1) % keys.length)
      (CursorFile.stored (((c + 1) % keys.length : Nat) : Int)) rfl hnext
    rw [rotationOutputs, get_next_read keys file c hr hc]
    simp only [List.range_succ_eq_map, List.map_cons, List.map_map]
    rw [hrec]
    congr 1
    · simp [Nat.mod_eq_of_lt hc]
    · apply List.map_congr_left
      intro i _
      have hidx : ((c + 1) % keys.length + i) % keys.length =
          (c + Nat.succ i) % keys.length := by
        rw [Nat.mod_add_mod]
        congr 1
        omega
      simp [Function.comp, hidx]

/-- C1: starting from cursor 0 (the file is absent, which reads as 0), N
sequential calls to get_next_api_key on a non-empty credential list return
list[0], list[1], ..., list[(N-1) mod L] in order, wrapping modulo L, and each
call made at an in-range cursor c persists the advanced cursor (c + 1) mod L
with the credential it returns. -/
theorem rotation_round_robin (keys : List String) (h : keys ≠ []) (N : Nat) :
    rotationOutputs keys CursorFile.absent N =
      (List.range N).map (fun i => Except.ok (keys.getD (i % keys.length) "")) ∧
    ∀ c : Nat, c < keys.length →
      get_next_api_key keys (CursorFile.stored (c : Int)) =
        Except.ok (keys.getD c "", CursorFile.stored (((c + 1) % keys.length : Nat) : Int)) := by
  have hL : 0 < keys.length := List.length_pos.mpr h
  constructor
  · have hout := rotationOutputs_read keys h N 0 CursorFile.absent rfl hL
    simpa using hout
  · intro c hc
    exact get_next_read keys (CursorFile.stored (c : Int)) c rfl hc

/-- Witness for C1 at the list ["A", "B"] of Scenario 1: three sessions get
"A", "B", "A", and a session starting at cursor 0 gets "A" and persists 1. -/
theorem rotation_round_robin_w :
    rotationOutputs ["A", "B"] CursorFile.absent 3 =
      (List.range 3).map
        (fun i => Except.ok ((["A", "B"] : List String).getD (i % (["A", "B"] : List String).length) "")) ∧
    get_next_api_key ["A", "B"] (CursorFile.stored ((0 : Nat) : Int)) =
      Except.ok ((["A", "B"] : List String).getD 0 "",
        CursorFile.stored (((0 + 1) % (["A", "B"] : List String).length : Nat) : Int)) :=
  ⟨(rotation_round_robin ["A", "B"] (by decide) 3).1,
   (rotation_round_robin ["A", "B"] (by decide) 3).2 0 (by decide)⟩

/-- C8 counterexample: on the empty credential list the rotator fails with the
generic IndexError — the very same outcome a well-formed two-element list with
an out-of-range stored cursor produces — and IndexError is not the
distinguished ConfigurationError outcome. -/
theorem empty_credentials_cex :
    get_next_api_key [] CursorFile.absent = Except.error RotError.indexError ∧
    get_next_api_key ["A", "B"] (CursorFile.stored 5) = Except.error RotError.indexError ∧
    RotError.indexError ≠ RotError.configurationError := by decide

/-- C8 amended: with an empty credential list every call of get_next_api_key
fails — it never returns a credential — but the failure is the generic
IndexError raised by the list subscription, not a distinguished
ConfigurationError. -/
theorem empty_credentials_fail (file : CursorFile) :
    get_next_api_key [] file = Except.error RotError.indexError := by
  unfold get_next_api_key
  rw [pyIndex_nil]

/-- C9 counterexample: a stored cursor of 7 on the two-element list parses
fine, is not reset to 0, and makes the selection fail with IndexError; a
stored cursor of -1 is likewise used as-is and selects from the end of the
list, so the index used does not satisfy 0 <= cursor < len(credentials). -/
theorem cursor_range_cex :
    get_next_api_key ["A", "B"] (CursorFile.stored 7) = Except.error RotError.indexError ∧
    get_next_api_key ["A", "B"] (CursorFile.stored (-1)) =
      Except.ok ("B", CursorFile.stored 0) := by decide

/-- C9 amended: an absent or corrupt cursor file defaults the cursor to 0, and
whenever the stored integer is an in-range index c (in particular any value the
function itself persisted for this list), the selection succeeds and the newly
persisted cursor (c + 1) mod L is again in range; but an out-of-range stored
integer is used unchecked, so the selection can fail on a well-formed non-empty
list. -/
theorem cursor_default_and_range (keys : List String) (h : keys ≠ []) :
    get_next_api_key keys CursorFile.absent =
      Except.ok (keys.getD 0 "", CursorFile.stored (((0 + 1) % keys.length : Nat) : Int)) ∧
    get_next_api_key keys CursorFile.corrupt =
      Except.ok (keys.getD 0 "", CursorFile.stored (((0 + 1) % keys.length : Nat) : Int)) ∧
    ∀ c : Nat, c < keys.length →
      get_next_api_key keys (CursorFile.stored (c : Int)) =
        Except.ok (keys.getD c "", CursorFile.stored (((c + 1) % keys.length : Nat) : Int)) ∧
      (c + 1) % keys.length < keys.length := by
  have hL : 0 < keys.length := List.length_pos.mpr h
  refine ⟨get_next_read keys CursorFile.absent 0 rfl hL,
          get_next_read keys CursorFile.corrupt 0 rfl hL,
          fun c hc => ⟨get_next_read keys (CursorFile.stored (c : Int)) c rfl hc,
                       Nat.mod_lt _ hL⟩⟩

/-! ### Helper lemmas for the resilient invoker -/

theorem retryLoop_success (call : Nat → CallOutcome) (a fuel : Nat) (v : String)
    (hc : call a = CallOutcome.success v) :
    retryLoop call a fuel = (InvokeResult.ok v, []) := by
  rw [retryLoop, hc]

theorem retryLoop_fatal (call : Nat → CallOutcome) (a fuel : Nat) (e : PyExn)
    (hc : call a = CallOutcome.failure e) (hr : isRetryable e = false) :
    retryLoop call a fuel = (InvokeResult.raised e, []) := by
  rw [retryLoop, hc]
  simp [hr]

theorem retryLoop_stop (call : Nat → CallOutcome) (a : Nat) (e : PyExn)
    (hc : call a = CallOutcome.failure e) (hr : isRetryable e = true) :
    retryLoop call a 0 = (InvokeResult.retryError e, []) := by
  rw [retryLoop, hc]
  simp [hr]

theorem retryLoop_retry (call : Nat → CallOutcome) (a f : Nat) (e : PyExn)
    (hc : call a = CallOutcome.failure e) (hr : isRetryable e = true) :
    retryLoop call a (Nat.succ f) =
      ((retryLoop call (a + 1) f).1,
        waitExponential 2 5 30 a :: (retryLoop call (a + 1) f).2) := by
  rw [retryLoop, hc]
  simp [hr]

/-- C2 counterexample: with RateLimitError raised on attempts 1 through 4 and
success on attempt 5, the waits actually performed are 5, 5, 8 and 16
seconds — 34 seconds in total — not the claimed 5, 10, 20, 30 totalling 65:
tenacity computes max(5, min(30, 2 * 2 ^ (attempt - 1))), not
min(30, 5 * 2 ^ n). -/
theorem backoff_schedule_cex :
    (safe_request (fun a => if a ≤ 4 then CallOutcome.failure PyExn.rateLimitError
        else CallOutcome.success "ok")).2 = [5, 5, 8, 16] ∧
    ([5, 5, 8, 16] : List Nat) ≠ [5, 10, 20, 30] ∧
    ([5, 5, 8, 16] : List Nat).sum = 34 ∧ (34 : Nat) ≠ 65 := by decide

/-- C2 amended: for every run of safe_request whose remote call raises a
retryable error on attempts 1 through 4 and succeeds on attempt 5, the invoker
returns the success value, and the delay waited after failed attempt n equals
max(5s, min(30s, 2s * 2 ^ (n - 1))) — i.e. the four inter-attempt waits are
5s, 5s, 8s and 16s, totalling 34s. -/
theorem backoff_schedule (call : Nat → CallOutcome) (v : String)
    (hfail : ∀ a, 1 ≤ a → a ≤ 4 → ∃ e, call a = CallOutcome.failure e ∧ isRetryable e = true)
    (hsucc : call 5 = CallOutcome.success v) :
    safe_request call = (InvokeResult.ok v,
      [waitExponential 2 5 30 1, waitExponential 2 5 30 2,
       waitExponential 2 5 30 3, waitExponential 2 5 30 4]) ∧
    [waitExponential 2 5 30 1, waitExponential 2 5 30 2,
     waitExponential 2 5 30 3, waitExponential 2 5 30 4] = [5, 5, 8, 16] ∧
    ([5, 5, 8, 16] : List Nat).sum = 34 := by
  obtain ⟨e1, h1, r1⟩ := hfail 1 (by omega) (by omega)
  obtain ⟨e2, h2, r2⟩ := hfail 2 (by omega) (by omega)
  obtain ⟨e3, h3, r3⟩ := hfail 3 (by omega) (by omega)
  obtain ⟨e4, h4, r4⟩ := hfail 4 (by omega) (by omega)
  have s1 : retryLoop call 1 4 =
      ((retryLoop call 2 3).1, waitExponential 2 5 30 1 :: (retryLoop call 2 3).2) :=
    retryLoop_retry call 1 3 e1 h1 r1
  have s2 : retryLoop call 2 3 =
      ((retryLoop call 3 2).1, waitExponential 2 5 30 2 :: (retryLoop call 3 2).2) :=
    retryLoop_retry call 2 2 e2 h2 r2
  have s3 : retryLoop call 3 2 =
      ((retryLoop call 4 1).1, waitExponential 2 5 30 3 :: (retryLoop call 4 1).2) :=
    retryLoop_retry call 3 1 e3 h3 r3
  have s4 : retryLoop call 4 1 =
      ((retryLoop call 5 0).1, waitExponential 2 5 30 4 :: (retryLoop call 5 0).2) :=
    retryLoop_retry call 4 0 e4 h4 r4
  have s5 : retryLoop call 5 0 = (InvokeResult.ok v, []) :=
    retryLoop_success call 5 0 v hsucc
  refine ⟨?_, by decide, by decide⟩
  unfold safe_request
  rw [s1, s2, s3, s4, s5]

/-- Witness for the amended C2 at a concrete remote behaviour. -/
theorem backoff_schedule_w :
    safe_request (fun a => if a ≤ 4 then CallOutcome.failure PyExn.apiError
        else CallOutcome.success "done") = (InvokeResult.ok "done",
      [waitExponential 2 5 30 1, waitExponential 2 5 30 2,
       waitExponential 2 5 30 3, waitExponential 2 5 30 4]) :=
  (backoff_schedule (fun a => if a ≤ 4 then CallOutcome.failure PyExn.apiError
      else CallOutcome.success "done") "done"
    (fun a _ h4 => ⟨PyExn.apiError, by simp [h4], rfl⟩)
    (by norm_num)).1

/-- C3: safe_request retries only on outcomes raised as RateLimitError or
APIError; a non-retryable exception raised at any attempt propagates to the
caller at once, with no retry and no wait; and a run in which all five attempts
fail with retryable errors propagates a RetryError carrying the last cause
instead of returning a value. -/
theorem retry_classification :
    (∀ (call : Nat → CallOutcome) (a fuel : Nat) (e : PyExn),
        call a = CallOutcome.failure e → isRetryable e = false →
        retryLoop call a fuel = (InvokeResult.raised e, [])) ∧
    (∀ e, isRetryable e = true ↔ (e = PyExn.rateLimitError ∨ e = PyExn.apiError)) ∧
    (∀ (call : Nat → CallOutcome),
        (∀ a, 1 ≤ a → a ≤ 5 → ∃ e, call a = CallOutcome.failure e ∧ isRetryable e = true) →
        ∃ e5, call 5 = CallOutcome.failure e5 ∧
          (safe_request call).1 = InvokeResult.retryError e5) := by
  refine ⟨fun call a fuel e hc hr => retryLoop_fatal call a fuel e hc hr,
          fun e => by cases e <;> simp [isRetryable],
          fun call hfail => ?_⟩
  obtain ⟨e1, h1, r1⟩ := hfail 1 (by omega) (by omega)
  obtain ⟨e2, h2, r2⟩ := hfail 2 (by omega) (by omega)
  obtain ⟨e3, h3, r3⟩ := hfail 3 (by omega) (by omega)
  obtain ⟨e4, h4, r4⟩ := hfail 4 (by omega) (by omega)
  obtain ⟨e5, h5, r5⟩ := hfail 5 (by omega) (by omega)
  have s1 : retryLoop call 1 4 =
      ((retryLoop call 2 3).1, waitExponential 2 5 30 1 :: (retryLoop call 2 3).2) :=
    retryLoop_retry call 1 3 e1 h1 r1
  have s2 : retryLoop call 2 3 =
      ((retryLoop call 3 2).1, waitExponential 2 5 30 2 :: (retryLoop call 3 2).2) :=
    retryLoop_retry call 2 2 e2 h2 r2
  have s3 : retryLoop call 3 2 =
      ((retryLoop call 4 1).1, waitExponential 2 5 30 3 :: (retryLoop call 4 1).2) :=
    retryLoop_retry call 3 1 e3 h3 r3
  have s4 : retryLoop call 4 1 =
      ((retryLoop call 5 0).1, waitExponential 2 5 30 4 :: (retryLoop call 5 0).2) :=
    retryLoop_retry call 4 0 e4 h4 r4
  have s5 : retryLoop call 5 0 = (InvokeResult.retryError e5, []) :=
    retryLoop_stop call 5 e5 h5 r5
  refine ⟨e5, h5, ?_⟩
  unfold safe_request
  rw [s1, s2, s3, s4, s5]

/-- Witness for C3: a fatal error on the first attempt is raised at once with
no waits, and five retryable failures end in a RetryError carrying the last
cause. -/
theorem retry_classification_w :
    retryLoop (fun _ => CallOutcome.failure PyExn.otherError) 1 4 =
      (InvokeResult.raised PyExn.otherError, []) ∧
    ∃ e5, (fun _ => CallOutcome.failure PyExn.rateLimitError) 5 = CallOutcome.failure e5 ∧
      (safe_request (fun _ => CallOutcome.failure PyExn.rateLimitError)).1 =
        InvokeResult.retryError e5 :=
  ⟨retry_classification.1 (fun _ => CallOutcome.failure PyExn.otherError) 1 4
      PyExn.otherError rfl rfl,
   retry_classification.2.2 (fun _ => CallOutcome.failure PyExn.rateLimitError)
      (fun _ _ _ => ⟨PyExn.rateLimitError, rfl, rfl⟩)⟩

/-- Witness for the amended C9 at the list ["A", "B"]: the absent file selects
"A" and persists 1, and the advanced cursor after reading 1 is again in
range. -/
theorem cursor_default_and_range_w :
    get_next_api_key ["A", "B"] CursorFile.absent =
      Except.ok ((["A", "B"] : List String).getD 0 "",
        CursorFile.stored (((0 + 1) % (["A", "B"] : List String).length : Nat) : Int)) ∧
    (1 + 1) % (["A", "B"] : List String).length < (["A", "B"] : List String).length :=
  ⟨(cursor_default_and_range ["A", "B"] (by decide)).1,
   ((cursor_default_and_range ["A", "B"] (by decide)).2.2 1 (by decide)).2⟩

/-! ### Conversation window -/

/-- C5 counterexample: at k = 0 the Python slice messages[-0:] is the whole
window, not the last 0 turns, because -0 is 0; so the slice disagrees with the
claimed behaviour at k = 0 on any non-empty window. -/
theorem context_suffix_cex :
    pySliceLast 0 [Msg.mk Role.user "U1"] = [Msg.mk Role.user "U1"] ∧
    specContextSuffix 0 [Msg.mk Role.user "U1"] = [] ∧
    pySliceLast 0 [Msg.mk Role.user "U1"] ≠ specContextSuffix 0 [Msg.mk Role.user "U1"] := by
  decide

/-- C5 amended: for every window and every k >= 1, the slice messages[-k:]
returns exactly the last k turns of the window in their original insertion
order — the whole window when it holds fewer than k turns — and the read
leaves the window unchanged. (At k = 0 the slice instead returns the whole
window; the code itself only uses k = 10.) -/
theorem context_suffix_last (k : Nat) (hk : 1 ≤ k) (xs : List Msg) :
    pySliceLast k xs = specContextSuffix k xs ∧
    (pySliceLast k xs).length = min k xs.length ∧
    xs.take (xs.length - k) ++ pySliceLast k xs = xs ∧
    (xs.length ≤ k → pySliceLast k xs = xs) ∧
    (contextRead k xs).2 = xs := by
  have hk0 : ¬ k = 0 := by omega
  refine ⟨by simp [pySliceLast, specContextSuffix, hk0], ?_, ?_, ?_, rfl⟩
  · simp only [pySliceLast, hk0, if_false, List.length_drop]
    rcases le_total k xs.length with hle | hle
    · rw [min_eq_left hle]
      omega
    · rw [min_eq_right hle]
      omega
  · simp only [pySliceLast, hk0, if_false, List.take_append_drop]
  · intro hlen
    have hz : xs.length - k = 0 := by omega
    simp [pySliceLast, hk0, hz]

/-- The window of Scenario 3. -/
def scenarioWindow : List Msg :=
  [Msg.mk Role.user "U1", Msg.mk Role.assistant "A1", Msg.mk Role.user "U2",
   Msg.mk Role.assistant "A2", Msg.mk Role.user "U3", Msg.mk Role.assistant "A3"]

/-- Witness for the amended C5 at Scenario 3: contextSuffix(4) of
[U1, A1, U2, A2, U3, A3] is [U2, A2, U3, A3]. -/
theorem context_suffix_last_w :
    pySliceLast 4 scenarioWindow = specContextSuffix 4 scenarioWindow ∧
    specContextSuffix 4 scenarioWindow =
      [Msg.mk Role.user "U2", Msg.mk Role.assistant "A2",
       Msg.mk Role.user "U3", Msg.mk Role.assistant "A3"] :=
  ⟨(context_suffix_last 4 (by omega) scenarioWindow).1, by decide⟩

/-! ### Helper lemmas for the session state machine -/

theorem page_home_submit_page (tok : String) (s : AppState) :
    (page_home_submit tok s).page = s.page ∨
      (tok ≠ "" ∧ (page_home_submit tok s).page = Page.Chat) := by
  unfold page_home_submit
  split_ifs with h
  · exact Or.inl rfl
  · exact Or.inr ⟨h, rfl⟩

theorem page_chat_turn_page (prompt : String) (remote : List Msg → Nat → CallOutcome)
    (s : AppState) : (page_chat_turn prompt remote s).page = s.page := by
  unfold page_chat_turn
  split_ifs
  · rfl
  · split <;> rfl

theorem page_chat_end_page (s : AppState) :
    (page_chat_end s).page = if 20 ≤ s.messages.length then Page.Result else s.page := by
  unfold page_chat_end
  split_ifs <;> rfl

theorem page_result_debrief_page (remote : Nat → CallOutcome) (s : AppState) :
    (page_result_debrief remote s).page = s.page := by
  unfold page_result_debrief
  split <;> rfl

theorem page_home_submit_messages (tok : String) (s : AppState) :
    (page_home_submit tok s).messages = s.messages := by
  unfold page_home_submit
  split_ifs <;> rfl

theorem page_chat_end_messages (s : AppState) :
    (page_chat_end s).messages = s.messages := by
  unfold page_chat_end
  split_ifs <;> rfl

theorem page_result_debrief_messages (remote : Nat → CallOutcome) (s : AppState) :
    (page_result_debrief remote s).messages = s.messages := by
  unfold page_result_debrief
  split <;> rfl

theorem page_chat_turn_messages (prompt : String) (remote : List Msg → Nat → CallOutcome)
    (s : AppState) :
    ∃ u, (page_chat_turn prompt remote s).messages = s.messages ++ u := by
  unfold page_chat_turn
  split_ifs
  · exact ⟨[], by simp⟩
  · split
    · rename_i ai heq
      exact ⟨[Msg.mk Role.user prompt, Msg.mk Role.assistant ai], by simp⟩
    · exact ⟨[Msg.mk Role.user prompt], rfl⟩
    · exact ⟨[Msg.mk Role.user prompt], rfl⟩

/-- Each step can only extend the message log at its end: the window is
append-only. -/
theorem step_messages_extend (op : Op) (s : AppState) :
    ∃ u, (step op s).messages = s.messages ++ u := by
  cases hpg : s.page with
  | Home =>
    cases op with
    | submitIntake tok =>
      refine ⟨[], ?_⟩
      rw [step.eq_def, hpg, List.append_nil]
      exact page_home_submit_messages tok s
    | chatTurn p r => exact ⟨[], by rw [step.eq_def, hpg, List.append_nil]⟩
    | endChat => exact ⟨[], by rw [step.eq_def, hpg, List.append_nil]⟩
    | debrief r => exact ⟨[], by rw [step.eq_def, hpg, List.append_nil]⟩
  | Chat =>
    cases op with
    | submitIntake tok => exact ⟨[], by rw [step.eq_def, hpg, List.append_nil]⟩
    | chatTurn p r =>
      obtain ⟨u, hu⟩ := page_chat_turn_messages p r s
      refine ⟨u, ?_⟩
      rw [step.eq_def, hpg]
      exact hu
    | endChat =>
      refine ⟨[], ?_⟩
      rw [step.eq_def, hpg, List.append_nil]
      exact page_chat_end_messages s
    | debrief r => exact ⟨[], by rw [step.eq_def, hpg, List.append_nil]⟩
  | Result =>
    cases op with
    | submitIntake tok => exact ⟨[], by rw [step.eq_def, hpg, List.append_nil]⟩
    | chatTurn p r => exact ⟨[], by rw [step.eq_def, hpg, List.append_nil]⟩
    | endChat => exact ⟨[], by rw [step.eq_def, hpg, List.append_nil]⟩
    | debrief r =>
      refine ⟨[], ?_⟩
      rw [step.eq_def, hpg, List.append_nil]
      exact page_result_debrief_messages r s

theorem run_cons (op : Op) (ops : List Op) (s : AppState) :
    run (op :: ops) s = run ops (step op s) := rfl

theorem run_messages_extend (ops : List Op) (s : AppState) :
    ∃ u, (run ops s).messages = s.messages ++ u := by
  induction ops generalizing s with
  | nil => exact ⟨[], by simp [run]⟩
  | cons op ops ih =>
    obtain ⟨u1, h1⟩ := step_messages_extend op s
    obtain ⟨u2, h2⟩ := ih (step op s)
    refine ⟨u1 ++ u2, ?_⟩
    rw [run_cons, h2, h1, List.append_assoc]

/-- Complete case analysis of how one step can change the page. -/
theorem step_page_cases (op : Op) (s : AppState) :
    (step op s).page = s.page ∨
    (s.page = Page.Home ∧ (step op s).page = Page.Chat ∧
      ∃ tok, op = Op.submitIntake tok ∧ tok ≠ "") ∨
    (s.page = Page.Chat ∧ op = Op.endChat ∧ 20 ≤ s.messages.length ∧
      (step op s).page = Page.Result) := by
  cases hpg : s.page with
  | Home =>
    cases op with
    | submitIntake tok =>
      by_cases ht : tok = ""
      · refine Or.inl ?_
        rw [step.eq_def, hpg]
        show (page_home_submit tok s).page = Page.Home
        unfold page_home_submit
        rw [if_pos ht]
        exact hpg
      · refine Or.inr (Or.inl ⟨rfl, ?_, tok, rfl, ht⟩)
        rw [step.eq_def, hpg]
        show (page_home_submit tok s).page = Page.Chat
        unfold page_home_submit
        rw [if_neg ht]
    | chatTurn p r =>
      refine Or.inl ?_
      rw [step.eq_def, hpg]
      exact hpg
    | endChat =>
      refine Or.inl ?_
      rw [step.eq_def, hpg]
      exact hpg
    | debrief r =>
      refine Or.inl ?_
      rw [step.eq_def, hpg]
      exact hpg
  | Chat =>
    cases op with
    | submitIntake tok =>
      refine Or.inl ?_
      rw [step.eq_def, hpg]
      exact hpg
    | chatTurn p r =>
      refine Or.inl ?_
      rw [step.eq_def, hpg]
      show (page_chat_turn p r s).page = Page.Chat
      rw [page_chat_turn_page]
      exact hpg
    | endChat =>
      by_cases h20 : 20 ≤ s.messages.length
      · refine Or.inr (Or.inr ⟨rfl, rfl, h20, ?_⟩)
        rw [step.eq_def, hpg]
        show (page_chat_end s).page = Page.Result
        unfold page_chat_end
        rw [if_pos h20]
      · refine Or.inl ?_
        rw [step.eq_def, hpg]
        show (page_chat_end s).page = Page.Chat
        unfold page_chat_end
        rw [if_neg h20]
        exact hpg
    | debrief r =>
      refine Or.inl ?_
      rw [step.eq_def, hpg]
      exact hpg
  | Result =>
    cases op with
    | submitIntake tok =>
      refine Or.inl ?_
      rw [step.eq_def, hpg]
      exact hpg
    | chatTurn p r =>
      refine Or.inl ?_
      rw [step.eq_def, hpg]
      exact hpg
    | endChat =>
      refine Or.inl ?_
      rw [step.eq_def, hpg]
      exact hpg
    | debrief r =>
      refine Or.inl ?_
      rw [step.eq_def, hpg]
      show (page_result_debrief r s).page = Page.Result
      rw [page_result_debrief_page]
      exact hpg

theorem step_rank_mono (op : Op) (s : AppState) :
    pageRank s.page ≤ pageRank (step op s).page := by
  rcases step_page_cases op s with h | ⟨h1, h2, _⟩ | ⟨h1, _, _, h2⟩
  · rw [h]
  · rw [h1, h2]
    decide
  · rw [h1, h2]
    decide

theorem run_rank_mono (ops : List Op) (s : AppState) :
    pageRank s.page ≤ pageRank (run ops s).page := by
  induction ops generalizing s with
  | nil => simp [run]
  | cons op ops ih =>
    rw [run_cons]
    exact le_trans (step_rank_mono op s) (ih (step op s))

theorem step_result_stays (op : Op) (s : AppState) (h : s.page = Page.Result) :
    (step op s).page = Page.Result := by
  rcases step_page_cases op s with hc | ⟨h1, _, _⟩ | ⟨h1, _, _, _⟩
  · rw [hc, h]
  · rw [h] at h1
    exact absurd h1 (by decide)
  · rw [h] at h1
    exact absurd h1 (by decide)

theorem run_result_stays (ops : List Op) (s : AppState) (h : s.page = Page.Result) :
    (run ops s).page = Page.Result := by
  induction ops generalizing s with
  | nil => exact h
  | cons op ops ih =>
    rw [run_cons]
    exact ih (step op s) (step_result_stays op s h)

theorem page_chat_turn_ok (s : AppState) (prompt : String)
    (remote : List Msg → Nat → CallOutcome) (ai : String) (hp : prompt ≠ "")
    (hok : (safe_request (remote (chatContext s.systemTemplate
        (s.messages ++ [Msg.mk Role.user prompt])))).1 = InvokeResult.ok ai) :
    page_chat_turn prompt remote s =
      { s with
        messages := (s.messages ++ [Msg.mk Role.user prompt]) ++
          [Msg.mk Role.assistant ai],
        savedMessages := s.savedMessages ++
          [ SavedMsg.mk "user" prompt s.userName "assistant"
              s.userEmail s.sessionId,
            SavedMsg.mk "assistant" ai "assistant" s.userName
              s.userEmail s.sessionId ] } := by
  unfold page_chat_turn
  rw [if_neg hp, hok]

theorem page_chat_turn_fail (s : AppState) (prompt : String)
    (remote : List Msg → Nat → CallOutcome) (e : PyExn) (hp : prompt ≠ "")
    (hfail : (safe_request (remote (chatContext s.systemTemplate
        (s.messages ++ [Msg.mk Role.user prompt])))).1 = InvokeResult.raised e ∨
      (safe_request (remote (chatContext s.systemTemplate
        (s.messages ++ [Msg.mk Role.user prompt])))).1 = InvokeResult.retryError e) :
    page_chat_turn prompt remote s =
      { s with messages := s.messages ++ [Msg.mk Role.user prompt] } := by
  unfold page_chat_turn
  rcases hfail with h | h
  · rw [if_neg hp, h]
  · rw [if_neg hp, h]

theorem step_at_chat (prompt : String) (remote : List Msg → Nat → CallOutcome)
    (s : AppState) (hpage : s.page = Page.Chat) :
    step (Op.chatTurn prompt remote) s = page_chat_turn prompt remote s := by
  rw [step.eq_def, hpage]

/-! ### Concrete states used by witnesses and counterexamples -/

/-- A session state with the given page and window, the other fields fixed. -/
def baseState (p : Page) (msgs : List Msg) : AppState :=
  AppState.mk p msgs "7" "7@test.cop" true "KEY" 1 "sys" [] []

/-- A dialogue state with an empty window. -/
def chatState0 : AppState := baseState Page.Chat []

/-- A dialogue state whose window holds 18 messages. -/
def chatState18 : AppState := baseState Page.Chat (List.replicate 18 (Msg.mk Role.user "x"))

/-- A dialogue state whose window holds 20 messages. -/
def chatState20 : AppState := baseState Page.Chat (List.replicate 20 (Msg.mk Role.user "x"))

/-- A remote that answers every attempt with the given reply. -/
def okRemote (reply : String) : List Msg → Nat → CallOutcome :=
  fun _ _ => CallOutcome.success reply

/-- A remote that raises a non-retryable error on every attempt. -/
def failRemote : List Msg → Nat → CallOutcome :=
  fun _ _ => CallOutcome.failure PyExn.otherError

/-! ### Lifecycle, dialogue-turn and intake claims -/

/-- C4: the page only moves forward along Home (Intake), Chat (Dialogue),
Result (Debrief): no sequence of operations lowers the rank or leaves Result;
a step can land on Chat only from Chat itself or from Home through an intake
submission with a non-empty token; and from Chat the end-of-chat transition to
Result is accepted exactly when the window holds at least 20 messages. -/
theorem lifecycle_monotone :
    (∀ (ops : List Op) (s : AppState), pageRank s.page ≤ pageRank (run ops s).page) ∧
    (∀ (ops : List Op) (s : AppState), s.page = Page.Result →
      (run ops s).page = Page.Result) ∧
    (∀ (op : Op) (s : AppState), (step op s).page = Page.Chat →
      s.page = Page.Chat ∨
        (s.page = Page.Home ∧ ∃ tok, op = Op.submitIntake tok ∧ tok ≠ "")) ∧
    (∀ s : AppState, s.page = Page.Chat →
      ((step Op.endChat s).page = Page.Result ↔ 20 ≤ s.messages.length)) := by
  refine ⟨fun ops s => run_rank_mono ops s,
          fun ops s h => run_result_stays ops s h, ?_, ?_⟩
  · intro op s hc
    rcases step_page_cases op s with h | ⟨h1, _, h3⟩ | ⟨h1, _, _, h4⟩
    · exact Or.inl (h.symm.trans hc)
    · exact Or.inr ⟨h1, h3⟩
    · rw [hc] at h4
      exact absurd h4 (by decide)
  · intro s hs
    constructor
    · intro hres
      by_contra h20
      have hstay : (step Op.endChat s).page = Page.Chat := by
        rw [step.eq_def, hs]
        show (page_chat_end s).page = Page.Chat
        unfold page_chat_end
        rw [if_neg h20]
        exact hs
      rw [hstay] at hres
      exact absurd hres (by decide)
    · intro h20
      rw [step.eq_def, hs]
      show (page_chat_end s).page = Page.Result
      unfold page_chat_end
      rw [if_pos h20]

/-- Witness for C4 at Scenario 4: the end-of-chat transition is rejected with
18 messages in the window and accepted with 20. -/
theorem lifecycle_monotone_w :
    ((step Op.endChat chatState18).page = Page.Result ↔ 20 ≤ chatState18.messages.length) ∧
    ((step Op.endChat chatState20).page = Page.Result ↔ 20 ≤ chatState20.messages.length) ∧
    (step Op.endChat chatState18).page = Page.Chat ∧
    (step Op.endChat chatState20).page = Page.Result :=
  ⟨lifecycle_monotone.2.2.2 chatState18 rfl,
   lifecycle_monotone.2.2.2 chatState20 rfl,
   by decide, by decide⟩

/-- C6: on a dialogue turn with a non-empty prompt, if the invocation succeeds
the agent reply is appended after the user turn, both turns are persisted
through the transcript sink, and the session stays on the chat page; if the
invocation fails after retries (raised or RetryError), no agent turn is
appended, no reply is synthesized, neither turn is persisted — the only change
is the user message in the window — and the session stays on the chat page,
able to accept further turns. -/
theorem dialogue_turn (s : AppState) (prompt : String)
    (remote : List Msg → Nat → CallOutcome)
    (hpage : s.page = Page.Chat) (hp : prompt ≠ "") :
    (∀ ai, (safe_request (remote (chatContext s.systemTemplate
        (s.messages ++ [Msg.mk Role.user prompt])))).1 = InvokeResult.ok ai →
      step (Op.chatTurn prompt remote) s =
        { s with
          messages := (s.messages ++ [Msg.mk Role.user prompt]) ++
            [Msg.mk Role.assistant ai],
          savedMessages := s.savedMessages ++
            [ SavedMsg.mk "user" prompt s.userName "assistant"
                s.userEmail s.sessionId,
              SavedMsg.mk "assistant" ai "assistant" s.userName
                s.userEmail s.sessionId ] } ∧
      (step (Op.chatTurn prompt remote) s).page = Page.Chat) ∧
    (∀ e, ((safe_request (remote (chatContext s.systemTemplate
        (s.messages ++ [Msg.mk Role.user prompt])))).1 = InvokeResult.raised e ∨
       (safe_request (remote (chatContext s.systemTemplate
        (s.messages ++ [Msg.mk Role.user prompt])))).1 = InvokeResult.retryError e) →
      step (Op.chatTurn prompt remote) s =
        { s with messages := s.messages ++ [Msg.mk Role.user prompt] } ∧
      (step (Op.chatTurn prompt remote) s).page = Page.Chat) := by
  constructor
  · intro ai hok
    have heq := (step_at_chat prompt remote s hpage).trans
      (page_chat_turn_ok s prompt remote ai hp hok)
    refine ⟨heq, ?_⟩
    rw [heq]
    exact hpage
  · intro e hfail
    have heq := (step_at_chat prompt remote s hpage).trans
      (page_chat_turn_fail s prompt remote e hp hfail)
    refine ⟨heq, ?_⟩
    rw [heq]
    exact hpage

/-- Witness for C6: a successful turn at a concrete state appends both
messages and persists both turns. -/
theorem dialogue_turn_w :
    step (Op.chatTurn "hello" (okRemote "hi")) chatState0 =
      { chatState0 with
        messages := (chatState0.messages ++ [Msg.mk Role.user "hello"]) ++
          [Msg.mk Role.assistant "hi"],
        savedMessages := chatState0.savedMessages ++
          [ SavedMsg.mk "user" "hello" chatState0.userName "assistant"
              chatState0.userEmail chatState0.sessionId,
            SavedMsg.mk "assistant" "hi" "assistant" chatState0.userName
              chatState0.userEmail chatState0.sessionId ] } ∧
    (step (Op.chatTurn "hello" (okRemote "hi")) chatState0).page = Page.Chat :=
  (dialogue_turn chatState0 "hello" (okRemote "hi") rfl (by decide)).1 "hi" rfl

/-- The state after a failed turn with user message F followed by five
successful turns. -/
def lostRun : AppState :=
  run [Op.chatTurn "F" failRemote,
       Op.chatTurn "q1" (okRemote "r1"), Op.chatTurn "q2" (okRemote "r2"),
       Op.chatTurn "q3" (okRemote "r3"), Op.chatTurn "q4" (okRemote "r4"),
       Op.chatTurn "q5" (okRemote "r5")] chatState0

/-- C10 counterexample: the failed turn's user message F stays in the window,
but after five further successful turns the context built for the next (sixth
subsequent) turn no longer contains it — it has fallen out of the last-10
slice — so the context of every subsequent turn does not include it. -/
theorem failed_turn_context_cex :
    Msg.mk Role.user "F" ∈ lostRun.messages ∧
    Msg.mk Role.user "F" ∉ chatContext lostRun.systemTemplate
      (lostRun.messages ++ [Msg.mk Role.user "q6"]) := by decide

/-- C10 amended: on a failed dialogue turn the only session-state change is
the user turn appended to the window before the invoker was called — page,
credential, session id, user identity and all persisted transcripts are
unchanged — that turn is not rolled back, and it remains in the window of
every subsequent state; the model context of a subsequent turn includes it
only while it lies within the last-10 slice of the window. -/
theorem failed_turn_frame (s : AppState) (prompt : String)
    (remote : List Msg → Nat → CallOutcome) (e : PyExn)
    (hpage : s.page = Page.Chat) (hp : prompt ≠ "")
    (hfail : (safe_request (remote (chatContext s.systemTemplate
        (s.messages ++ [Msg.mk Role.user prompt])))).1 = InvokeResult.raised e ∨
      (safe_request (remote (chatContext s.systemTemplate
        (s.messages ++ [Msg.mk Role.user prompt])))).1 = InvokeResult.retryError e) :
    step (Op.chatTurn prompt remote) s =
      { s with messages := s.messages ++ [Msg.mk Role.user prompt] } ∧
    Msg.mk Role.user prompt ∈ (step (Op.chatTurn prompt remote) s).messages ∧
    (∀ ops : List Op,
      Msg.mk Role.user prompt ∈ (run ops (step (Op.chatTurn prompt remote) s)).messages) := by
  have heq := (step_at_chat prompt remote s hpage).trans
    (page_chat_turn_fail s prompt remote e hp hfail)
  refine ⟨heq, ?_, ?_⟩
  · rw [heq]
    simp
  · intro ops
    obtain ⟨u, hu⟩ := run_messages_extend ops (step (Op.chatTurn prompt remote) s)
    rw [hu, heq]
    simp

/-- Witness for the amended C10 at a concrete failed turn. -/
theorem failed_turn_frame_w :
    step (Op.chatTurn "F" failRemote) chatState0 =
      { chatState0 with messages := chatState0.messages ++ [Msg.mk Role.user "F"] } ∧
    Msg.mk Role.user "F" ∈ (step (Op.chatTurn "F" failRemote) chatState0).messages :=
  ⟨(failed_turn_frame chatState0 "F" failRemote PyExn.otherError rfl (by decide)
      (Or.inl rfl)).1,
   (failed_turn_frame chatState0 "F" failRemote PyExn.otherError rfl (by decide)
      (Or.inl rfl)).2.1⟩

/-- C7: registering an identity whose email is not yet stored inserts exactly
one record, and registering the same email again completes without raising —
the IntegrityError from the unique constraint is caught and treated as a no-op
success — leaving exactly one stored record with that email. -/
theorem intake_idempotent (db : List UserRec) (u w : UserRec)
    (habs : ∀ r ∈ db, r.email ≠ u.email) (hw : w.email = u.email) :
    add_user db u = Except.ok (db ++ [u]) ∧
    add_user (db ++ [u]) w = Except.ok (db ++ [u]) ∧
    ((db ++ [u]).filter fun r => decide (r.email = u.email)).length = 1 := by
  have hany : ¬ (db.any fun r => decide (r.email = u.email)) = true := by
    simp only [List.any_eq_true, decide_eq_true_eq]
    rintro ⟨r, hr, he⟩
    exact habs r hr he
  refine ⟨?_, ?_, ?_⟩
  · unfold add_user commitInsert
    rw [if_neg hany]
  · have hany2 : ((db ++ [u]).any fun r => decide (r.email = w.email)) = true := by
      simp only [List.any_eq_true, decide_eq_true_eq]
      exact ⟨u, by simp, hw.symm⟩
    unfold add_user commitInsert
    rw [if_pos hany2]
  · rw [List.filter_append]
    have h1 : db.filter (fun r => decide (r.email = u.email)) = [] := by
      rw [List.filter_eq_nil_iff]
      intro r hr
      simp [habs r hr]
    rw [h1]
    simp

/-- Witness for C7: registering 1234@test.cop twice in an empty store leaves
one record and raises nothing. -/
theorem intake_idempotent_w :
    add_user [] (UserRec.mk "1234" "1234@test.cop") =
      Except.ok ([] ++ [UserRec.mk "1234" "1234@test.cop"]) ∧
    add_user ([] ++ [UserRec.mk "1234" "1234@test.cop"]) (UserRec.mk "1234" "1234@test.cop") =
      Except.ok ([] ++ [UserRec.mk "1234" "1234@test.cop"]) ∧
    ((([] : List UserRec) ++ [UserRec.mk "1234" "1234@test.cop"]).filter fun r =>
        decide (r.email = (UserRec.mk "1234" "1234@test.cop").email)).length = 1 :=
  intake_idempotent [] (UserRec.mk "1234" "1234@test.cop") (UserRec.mk "1234" "1234@test.cop")
    (by simp) rfl

end AgentAI
